import Mathlib

/-!
Verification of the expressBookReviews service (Express.js book-catalog and
review application) against its natural-language specification.

The JavaScript source is shallowly embedded:

* JS objects used as string-keyed maps (`book.reviews`, the `books` catalog,
  the rate-limiter's per-IP map) become association lists `List (String × α)`
  with JS property-assignment, property-deletion and lookup semantics
  (`objAssign`, `objDelete`, `objGet`); JS objects never hold a duplicate
  key, which appears as a `countKey … ≤ 1` hypothesis where it matters.
* Route handlers become pure functions from the relevant state and request
  data to an outcome plus the new state.  An uncaught JS `TypeError`
  (surfaced by Express as a 500 response) is the `internalError` outcome.
* Timestamps are `Int` milliseconds (as produced by `Date.now()`), so that
  `now - 60000` can be negative exactly as in JavaScript.
-/

namespace BookReviews

/-- JS property lookup `obj[k]` on a string-keyed object represented as an
association list: the value at the first entry whose key is `k`. -/
def objGet {α : Type} (l : List (String × α)) (k : String) : Option α :=
  match l with
  | [] => none
  | (k', v) :: rest => if k' = k then some v else objGet rest k

/-- JS property assignment `obj[k] = v`: overwrite the entry for `k` in place
when the key is present, otherwise append the new entry at the end (JS
objects preserve insertion order of string keys). -/
def objAssign {α : Type} (l : List (String × α)) (k : String) (v : α) :
    List (String × α) :=
  if l.any (fun p => p.1 == k) then
    l.map (fun p => if p.1 = k then (k, v) else p)
  else
    l ++ [(k, v)]

/-- JS property deletion `delete obj[k]`: remove the entry for `k`. -/
def objDelete {α : Type} (l : List (String × α)) (k : String) :
    List (String × α) :=
  l.filter (fun p => p.1 != k)

/-- Number of entries stored under key `k` (a genuine JS object always has
`countKey l k ≤ 1`). -/
def countKey {α : Type} (l : List (String × α)) (k : String) : Nat :=
  (l.filter (fun p => p.1 == k)).length

theorem objGet_replace_self {α : Type} (l : List (String × α)) (k : String) (v : α)
    (h : l.any (fun p => p.1 == k)) :
    objGet (l.map (fun p => if p.1 = k then (k, v) else p)) k = some v := by
  induction l with
  | nil => simp at h
  | cons p rest ih =>
    by_cases hp : p.1 = k
    · simp only [List.map_cons, if_pos hp]
      rw [objGet, if_pos rfl]
    · have hrest : rest.any (fun p => p.1 == k) := by
        simp only [List.any_cons, Bool.or_eq_true_iff] at h
        rcases h with h1 | h2
        · exact absurd (by simpa using h1) hp
        · exact h2
      simp only [List.map_cons, if_neg hp]
      rw [objGet, if_neg hp]
      exact ih hrest

theorem objGet_replace_ne {α : Type} (l : List (String × α)) (k k' : String) (v : α)
    (hne : k' ≠ k) :
    objGet (l.map (fun p => if p.1 = k then (k, v) else p)) k' = objGet l k' := by
  induction l with
  | nil => simp [objGet]
  | cons p rest ih =>
    by_cases hp : p.1 = k
    · simp only [List.map_cons, if_pos hp]
      rw [objGet, objGet, if_neg (fun hx => hne hx.symm),
        if_neg (fun hx => hne (hp ▸ hx).symm)]
      exact ih
    · simp only [List.map_cons, if_neg hp]
      rw [objGet, objGet]
      by_cases hpk : p.1 = k'
      · simp [hpk]
      · rw [if_neg hpk, if_neg hpk]
        exact ih

theorem objGet_append_single {α : Type} (l : List (String × α)) (k k' : String) (v : α) :
    objGet (l ++ [(k, v)]) k' =
      (objGet l k').orElse (fun _ => if k = k' then some v else none) := by
  induction l with
  | nil => simp [objGet]
  | cons p rest ih =>
    simp only [List.cons_append]
    rw [objGet, objGet]
    by_cases hpk : p.1 = k'
    · simp [hpk]
    · rw [if_neg hpk, if_neg hpk]
      exact ih

theorem objGet_objAssign_self {α : Type} (l : List (String × α)) (k : String) (v : α) :
    objGet (objAssign l k v) k = some v := by
  unfold objAssign
  by_cases h : l.any (fun p => p.1 == k)
  · rw [if_pos h]
    exact objGet_replace_self l k v h
  · rw [if_neg h, objGet_append_single, if_pos rfl]
    have hnone : objGet l k = none := by
      induction l with
      | nil => rfl
      | cons p rest ih =>
        simp only [List.any_cons, Bool.or_eq_true_iff, not_or] at h
        rw [objGet, if_neg (by simpa using h.1)]
        exact ih h.2
    rw [hnone]
    rfl

theorem objGet_objAssign_ne {α : Type} (l : List (String × α)) (k k' : String) (v : α)
    (hne : k' ≠ k) : objGet (objAssign l k v) k' = objGet l k' := by
  unfold objAssign
  by_cases h : l.any (fun p => p.1 == k)
  · rw [if_pos h]
    exact objGet_replace_ne l k k' v hne
  · rw [if_neg h, objGet_append_single, if_neg (fun hx => hne hx.symm)]
    cases objGet l k' <;> rfl

theorem countKey_objAssign_self {α : Type} (l : List (String × α)) (k : String) (v : α)
    (h : countKey l k ≤ 1) : countKey (objAssign l k v) k = 1 := by
  unfold objAssign
  by_cases hany : l.any (fun p => p.1 == k)
  · rw [if_pos hany]
    have hkey : ∀ m : List (String × α), countKey (m.map (fun p => if p.1 = k then (k, v) else p)) k = countKey m k := by
      intro m
      induction m with
      | nil => rfl
      | cons p rest ih =>
        by_cases hp : p.1 = k
        · simp only [List.map_cons, if_pos hp]
          unfold countKey at *
          simp only [List.filter_cons]
          have : (p.1 == k) = true := by simpa using hp
          simp [this, ih]
        · simp only [List.map_cons, if_neg hp]
          unfold countKey at *
          simp only [List.filter_cons]
          have : (p.1 == k) = false := by simpa using hp
          simp [this, ih]
    rw [hkey]
    have hpos : 0 < (l.filter (fun p => p.1 == k)).length := by
      rcases List.any_eq_true.mp hany with ⟨p, hmem, hpk⟩
      have hmf : p ∈ l.filter (fun p => p.1 == k) := List.mem_filter.mpr ⟨hmem, hpk⟩
      exact List.length_pos.mpr (List.ne_nil_of_mem hmf)
    unfold countKey at *
    omega
  · rw [if_neg hany]
    have hzero : (l.filter (fun p => p.1 == k)).length = 0 := by
      rw [List.length_eq_zero, List.filter_eq_nil_iff]
      intro p hmem hpk
      exact absurd (List.any_eq_true.mpr ⟨p, hmem, hpk⟩) hany
    unfold countKey
    rw [List.filter_append, List.length_append, hzero]
    simp

theorem objGet_objDelete_self {α : Type} (l : List (String × α)) (k : String) :
    objGet (objDelete l k) k = none := by
  unfold objDelete
  induction l with
  | nil => rfl
  | cons p rest ih =>
    simp only [List.filter_cons]
    by_cases hp : p.1 = k
    · have : (p.1 != k) = false := by simp [bne, hp]
      simp only [this, Bool.false_eq_true, if_false]
      exact ih
    · have : (p.1 != k) = true := by simp [bne, hp]
      simp only [this, if_true]
      rw [objGet, if_neg hp]
      exact ih

theorem objGet_objDelete_ne {α : Type} (l : List (String × α)) (k k' : String)
    (hne : k' ≠ k) : objGet (objDelete l k) k' = objGet l k' := by
  unfold objDelete
  induction l with
  | nil => rfl
  | cons p rest ih =>
    simp only [List.filter_cons]
    by_cases hp : p.1 = k
    · have hb : (p.1 != k) = false := by simp [bne, hp]
      simp only [hb, Bool.false_eq_true, if_false]
      rw [objGet, if_neg (fun hx => hne (hx.symm.trans hp))]
      exact ih
    · have hb : (p.1 != k) = true := by simp [bne, hp]
      simp only [hb, if_true]
      rw [objGet, objGet]
      by_cases hpk : p.1 = k'
      · simp [hpk]
      · rw [if_neg hpk, if_neg hpk]
        exact ih

/-! ## Data model -/

/-- Payload that the login handler signs into the access token:
`jwt.sign({username: username, pw: password, patato: "ya"}, 'access',
{expiresIn: 3600})` in `router/auth_users.js`. -/
structure TokenPayload where
  username : String
  pw : String
  patato : String
deriving DecidableEq, Repr

/-- Modelled from the spec: a token of the external `jsonwebtoken` library
collaborator (TokenService, spec section 4.1).  It embeds the subject
payload, the issue time and the expiry; the signature over the payload under
the signing key is represented by recording which key signed the token,
which is exactly what a valid MAC certifies.  Times are in seconds as in
JWT claims. -/
structure Token where
  payload : TokenPayload
  iat : Nat
  exp : Nat
  sigKey : String
deriving DecidableEq, Repr

inductive AuthError
  | expiredToken
  | invalidSignature
deriving DecidableEq, Repr

/-- Modelled from the spec: `jwt.sign(payload, key)` with `expiresIn = ttl`
(spec section 4.1, Issue): always succeeds, embeds the subject and
expiry = now + ttl, and signs the payload with the process-wide key. -/
def jwtSign (payload : TokenPayload) (key : String) (now ttl : Nat) : Token :=
  { payload := payload, iat := now, exp := now + ttl, sigKey := key }

/-- Modelled from the spec: `jwt.verify(token, key)` (spec section 4.1,
Verify, and the section 8 round-trip property): fails with
`invalidSignature` when the signature does not match the payload under the
current key; fails with `expiredToken` at any time at or after the expiry
(section 8: at time ≥ issued+ttl); otherwise returns the embedded payload.
Verification is a pure function of the token, the key and the clock. -/
def jwtVerify (t : Token) (key : String) (now : Nat) :
    Except AuthError TokenPayload :=
  if t.sigKey ≠ key then .error .invalidSignature
  else if t.exp ≤ now then .error .expiredToken
  else .ok t.payload

/-- A catalog entry of the `booksdb.js` collaborator, with the fields the
handlers touch: `title`, `author`, and the `reviews` object mapping a
reviewer username to the stored review text. -/
structure Book where
  title : String
  author : String
  reviews : List (String × String)
deriving DecidableEq, Repr

/-- The module-level `books` object: isbn keys to `Book` values. -/
abbrev Books := List (String × Book)

/-- Review text stored for user `u` on book `i`, if any. -/
def reviewAt (books : Books) (i u : String) : Option String :=
  (objGet books i).bind fun b => objGet b.reviews u

/-- The `req.session.authorization` object created by the login handler. -/
structure SessionAuth where
  accessToken : Token
  username : String
deriving DecidableEq, Repr

/-- An entry of the module-level `users` array of `router/auth_users.js`. -/
structure User where
  username : String
  password : String
deriving DecidableEq, Repr

/-! ## Route handlers -/

inductive LoginOutcome
  | missingFields       -- 404, message "no password or login"
  | invalidCredentials  -- 208, message "Invalid Login. Check username and password"
  | loggedIn            -- 200, "User successfully logged in"
deriving DecidableEq, Repr

/-- The `POST /login` handler of `router/auth_users.js`.  JS string
truthiness makes `!username` true exactly on the empty string, so the
missing-fields branch fires for empty inputs; otherwise the handler filters
`users` for an entry whose username and password are both strictly equal
(`===`, hence case-sensitive) to the supplied strings, and on a match signs
the access token and stores the session authorization. -/
def login (usersList : List User) (username password : String) (now : Nat) :
    LoginOutcome × Option SessionAuth :=
  if username = "" ∨ password = "" then
    (.missingFields, none)
  else if usersList.any (fun u => u.username == username && u.password == password) then
    (.loggedIn, some
      { accessToken :=
          jwtSign { username := username, pw := password, patato := "ya" } "access" now (60 * 60),
        username := username })
  else
    (.invalidCredentials, none)

inductive PutOutcome
  | forbidden      -- 403 sent from the jwt.verify error callback
  | updated        -- 200, message "Book updated:..."
  | internalError  -- uncaught TypeError, surfaced by Express as a 500
deriving DecidableEq, Repr

/-- The `PUT /auth/review/:isbn` handler of `router/auth_users.js`.  It
reads the token from `req.session.authorization` (a missing authorization
object is a TypeError), verifies it with key "access", and on success runs
`books[isbn].reviews[decoded.username] = {review: reviewText}` — which is a
TypeError when `books[isbn]` is undefined, i.e. when the isbn is not in the
catalog, because the handler never checks the catalog before dereferencing.
The review text comes from `req.query.review`. -/
def putReview (books : Books) (auth : Option SessionAuth) (now : Nat)
    (isbn reviewText : String) : PutOutcome × Books :=
  match auth with
  | none => (.internalError, books)
  | some a =>
    match jwtVerify a.accessToken "access" now with
    | .error _ => (.forbidden, books)
    | .ok decoded =>
      match objGet books isbn with
      | none => (.internalError, books)
      | some b =>
        (.updated,
          objAssign books isbn
            { b with reviews := objAssign b.reviews decoded.username reviewText })

inductive DeleteOutcome
  | errorDeleting   -- 500, message "Error deleting review" (TypeError caught by the try block)
  | unauthorized    -- 401, message "Unauthorized"
  | bookNotFound    -- 404, message "Book not found"
  | reviewNotFound  -- 404, message "Review not found"
  | deleted         -- 200, message "Review deleted"
deriving DecidableEq, Repr

/-- The `DELETE /auth/review/:isbn` handler (src/unnamed/part_001, lines
1601-1629).  The deletion key is `req.session.authorization.username` — the
identity resolved at login — never a request-supplied field.  A missing
authorization object makes that dereference a TypeError, caught by the
surrounding try/catch (500); a falsy username answers 401; then book and
review existence are checked in that order.  Review values stored by the
put handler are `{review: ...}` objects and hence always truthy, so the
`book.reviews[username]` truthiness test is a membership test. -/
def deleteReview (books : Books) (auth : Option SessionAuth) (isbn : String) :
    DeleteOutcome × Books :=
  match auth with
  | none => (.errorDeleting, books)
  | some a =>
    if a.username = "" then (.unauthorized, books)
    else
      match objGet books isbn with
      | none => (.bookNotFound, books)
      | some b =>
        match objGet b.reviews a.username with
        | some _ =>
          (.deleted,
            objAssign books isbn { b with reviews := objDelete b.reviews a.username })
        | none => (.reviewNotFound, books)

inductive ListOutcome
  | bookNotFound                                  -- 404, "Book not found"
  | noReviewsFound                                -- 404, "No reviews available" (part_000 variant only)
  | okReviews (reviews : List (String × String))  -- 200, carrying the reviews mapping
deriving DecidableEq, Repr

/-- The `GET /review/:isbn` handler of `final_project/router/general.js`
(lines 90-99): returns `books[isbn].reviews` with status 200 whenever the
book exists, whatever the mapping contains. -/
def listReviewsMain (books : Books) (isbn : String) : ListOutcome :=
  match objGet books isbn with
  | none => .bookNotFound
  | some b => .okReviews b.reviews

/-- The `GET /review/:isbn` handler variant of src/unnamed/part_000 (lines
435-471): answers 404 "No reviews available" when the book exists but its
reviews object is missing or empty.  The handler re-trims the isbn, a no-op
here because the boundary already supplies trimmed strings (spec section 6),
so the trim is omitted. -/
def listReviewsV0 (books : Books) (isbn : String) : ListOutcome :=
  match objGet books isbn with
  | none => .bookNotFound
  | some b =>
    if b.reviews.length = 0 then .noReviewsFound else .okReviews b.reviews

/-- The `GET /review/:isbn` handler variant of src/unnamed/part_001 (lines
701-766): answers 200 with an empty reviews object (and an invitation
message) when the book has no reviews; `req.cleanedIsbn` is the trimmed
isbn from the validateIsbn middleware, again a no-op on the pre-trimmed
boundary inputs, so the trim is omitted. -/
def listReviewsV1 (books : Books) (isbn : String) : ListOutcome :=
  match objGet books isbn with
  | none => .bookNotFound
  | some b =>
    if b.reviews.length = 0 then .okReviews [] else .okReviews b.reviews

/-! ## Rate limiter and async gateway -/

/-- The module-level `asyncRequestCounts` map: client IP to the array of
accepted request timestamps in milliseconds. -/
abbrev RateMap := List (String × List Int)

/-- JS `Math.min(...requests)` on a non-empty array.  The empty case, where
JS returns Infinity, is unreachable on the deny path because the deny branch
requires at least `limit ≥ 1` retained timestamps. -/
def jsMathMin : List Int → Int
  | [] => 0
  | t :: rest => rest.foldl min t

/-- JS `Math.ceil(num / den)` for integer `num` and positive `den`, as in
`Math.ceil((oldestRequest + RATE_LIMIT_WINDOW - now) / 1000)`. -/
def jsMathCeilDiv (num den : Int) : Int :=
  -((-num).fdiv den)

inductive AdmitDecision
  | allowed
  | denied (retryAfter : Int)  -- 429 with Retry-After and retryAfter in the body
deriving DecidableEq, Repr

/-- The `checkRateLimit` middleware (src/unnamed/part_001, lines 894-938).
`limit` is the module constant `ASYNC_RATE_LIMIT` (100 in the source) and
`window` is `RATE_LIMIT_WINDOW` (60000 ms); both are process-wide
configuration, taken as parameters here.  The middleware reads the
timestamps recorded for the client, keeps those with `time > now - window`,
denies without recording `now` (and without writing the pruned list back)
when the retained count has reached the limit, reporting
`retryAfter = ceil((oldest + window - now) / 1000)` seconds, and otherwise
appends `now` to the retained list, stores it, and admits. -/
def retainedRequests (st : RateMap) (clientIP : String) (window now : Int) :
    List Int :=
  ((objGet st clientIP).getD []).filter (fun t => decide (now - window < t))

def checkRateLimit (limit : Nat) (window : Int) (st : RateMap)
    (clientIP : String) (now : Int) : AdmitDecision × RateMap :=
  let retained := retainedRequests st clientIP window now
  if limit ≤ retained.length then
    (.denied (jsMathCeilDiv (jsMathMin retained + window - now) 1000), st)
  else
    (.allowed, objAssign st clientIP (retained ++ [now]))

inductive AsyncOutcome
  | rateLimited (retryAfter : Int)  -- 429 issued by the middleware
  | served (body : String)          -- the handler ran on the downstream response
deriving DecidableEq, Repr

/-- The `GET /async` route (src/unnamed/part_001 from line 950 and
src/unnamed/part_000 lines 585-606): Express runs the `checkRateLimit`
middleware first, and the handler — whose first step is the downstream HTTP
call `getBookListAsync` to the synchronous catalog endpoint — runs only when
the middleware calls `next()`, i.e. only on admission.  `downstreamBody`
abstracts the downstream response; the returned `Nat` counts how many
downstream calls were issued. -/
def asyncBooksRoute (limit : Nat) (window : Int) (st : RateMap)
    (clientIP : String) (now : Int) (downstreamBody : String) :
    AsyncOutcome × RateMap × Nat :=
  match checkRateLimit limit window st clientIP now with
  | (.denied retryAfter, st2) => (.rateLimited retryAfter, st2, 0)
  | (.allowed, st2) => (.served downstreamBody, st2, 1)

/-! ## Concrete states used by witnesses and counterexamples -/

def c1Book : Book := { title := "T", author := "A", reviews := [] }

def c1Books : Books := [("1", c1Book)]

def c1Tok : Token :=
  jwtSign { username := "alice", pw := "pw1", patato := "ya" } "access" 0 3600

def c2Books : Books :=
  [("1", { title := "T", author := "A",
           reviews := [("alice", "good"), ("bob", "bad")] })]

def c2Tok : Token :=
  jwtSign { username := "bob", pw := "pw2", patato := "ya" } "access" 0 3600

def c4Books : Books := [("1", { title := "T", author := "A", reviews := [] })]

def c4Auth : SessionAuth := { accessToken := c1Tok, username := "alice" }

def c8Books : Books := [("1", { title := "T", author := "A", reviews := [] })]

def c9Users : List User := [{ username := "alice", password := "secret123" }]

def c3Books : Books :=
  [("1", { title := "T", author := "A", reviews := [("alice", "good")] })]

def w10Session1 : SessionAuth :=
  { accessToken := jwtSign { username := "alice", pw := "p1", patato := "ya" } "access" 0 3600,
    username := "alice" }

def w10Session2 : SessionAuth :=
  { accessToken := jwtSign { username := "alice", pw := "p2", patato := "ya" } "access" 0 3600,
    username := "alice" }

/-! ## Claim theorems -/

/-- C5: token round-trip.  Verifying the token produced by issuing for
subject `u` with time-to-live `ttl` (as the login handler does with
`jwt.sign`) strictly before `issued + ttl` returns exactly the embedded
subject `u`; at or after `issued + ttl` it fails with `expiredToken` and
returns no subject. -/
theorem token_roundtrip (u pw0 : String) (now ttl t : Nat) :
    (t < now + ttl →
      jwtVerify (jwtSign ⟨u, pw0, "ya"⟩ "access" now ttl) "access" t =
        .ok ⟨u, pw0, "ya"⟩) ∧
    (now + ttl ≤ t →
      jwtVerify (jwtSign ⟨u, pw0, "ya"⟩ "access" now ttl) "access" t =
        .error .expiredToken) := by
  constructor
  · intro h
    have h2 : ¬ ((jwtSign ⟨u, pw0, "ya"⟩ "access" now ttl).exp ≤ t) := by
      simp only [jwtSign]
      omega
    simp [jwtVerify, h2, jwtSign]
    omega
  · intro h
    have h2 : (jwtSign ⟨u, pw0, "ya"⟩ "access" now ttl).exp ≤ t := by
      simp only [jwtSign]
      omega
    simp [jwtVerify, h2, jwtSign]
    omega

/-- C5 witness: the round-trip at subject alice, issued at 0 with ttl 3600,
verified at times 3599 and 3600. -/
theorem token_roundtrip_witness :
    jwtVerify (jwtSign ⟨"alice", "x", "ya"⟩ "access" 0 3600) "access" 3599 =
      .ok ⟨"alice", "x", "ya"⟩ ∧
    jwtVerify (jwtSign ⟨"alice", "x", "ya"⟩ "access" 0 3600) "access" 3600 =
      .error .expiredToken :=
  ⟨(token_roundtrip "alice" "x" 0 3600 3599).1 (by norm_num),
   (token_roundtrip "alice" "x" 0 3600 3600).2 (by norm_num)⟩

/-- C10: the signed payload of the token issued by a successful login
contains the plaintext credential in the `pw` field alongside the subject
username, so the payloads of two successful logins with the same username
and different credentials are distinguishable, and decoding a token (JWT
payloads are base64-encoded, readable without the key — here the `payload`
field) reveals the credential. -/
theorem token_payload_contains_credential
    (users1 users2 : List User) (u p1 p2 : String) (now : Nat)
    (s1 s2 : SessionAuth)
    (h1 : login users1 u p1 now = (.loggedIn, some s1))
    (h2 : login users2 u p2 now = (.loggedIn, some s2))
    (hne : p1 ≠ p2) :
    s1.accessToken.payload.pw = p1 ∧
    s1.accessToken.payload.username = u ∧
    s2.accessToken.payload.pw = p2 ∧
    s1.accessToken.payload ≠ s2.accessToken.payload := by
  have e1 : s1.accessToken.payload = ⟨u, p1, "ya"⟩ := by
    unfold login at h1
    split at h1
    · simp at h1
    · split at h1
      · simp only [Prod.mk.injEq, Option.some.injEq] at h1
        rw [← h1.2]
        rfl
      · simp at h1
  have e2 : s2.accessToken.payload = ⟨u, p2, "ya"⟩ := by
    unfold login at h2
    split at h2
    · simp at h2
    · split at h2
      · simp only [Prod.mk.injEq, Option.some.injEq] at h2
        rw [← h2.2]
        rfl
      · simp at h2
  refine ⟨by rw [e1], by rw [e1], by rw [e2], ?_⟩
  rw [e1, e2]
  intro hcontra
  exact hne (congrArg TokenPayload.pw hcontra)

/-- C10 witness: two one-user stores with the same username and different
passwords; both logins succeed and the payloads differ, each leaking its
password. -/
theorem token_payload_contains_credential_witness :
    (w10Session1).accessToken.payload.pw = "p1" ∧
    (w10Session1).accessToken.payload.username = "alice" ∧
    (w10Session2).accessToken.payload.pw = "p2" ∧
    (w10Session1).accessToken.payload ≠ (w10Session2).accessToken.payload :=
  token_payload_contains_credential
    [{ username := "alice", password := "p1" }]
    [{ username := "alice", password := "p2" }]
    "alice" "p1" "p2" 0 w10Session1 w10Session2 rfl rfl (by decide)

/-- C4 (code bug evaluation): with a valid session token for alice and an
isbn absent from the catalog, the put-review handler dereferences
`books[isbn].reviews` on `undefined`, an uncaught TypeError surfaced as a
500 internal error — not the BookNotFound outcome the spec requires — and
no review is created (the state is unchanged). -/
theorem put_review_unknown_isbn_internal_error :
    putReview c4Books (some c4Auth) 0 "999" "nice" =
      (PutOutcome.internalError, c4Books) ∧
    objGet c4Books "999" = none := by
  constructor <;> rfl

/-- C2 counterexample: in a state where alice and bob each hold a review on
book 1, a delete issued by a caller whose resolved identity is bob does not
fail with an authorization error — it succeeds — and it removes the review
of bob, although the claim asserts the call fails and both reviews stay
exactly as they were. -/
theorem delete_other_user_counterexample :
    (deleteReview c2Books (some ⟨c2Tok, "bob"⟩) "1").1 = DeleteOutcome.deleted ∧
    reviewAt c2Books "1" "bob" = some "bad" ∧
    reviewAt (deleteReview c2Books (some ⟨c2Tok, "bob"⟩) "1").2 "1" "bob" = none ∧
    reviewAt c2Books "1" "alice" = some "good" := by
  refine ⟨rfl, rfl, rfl, rfl⟩

/-- C8 counterexample: book 1 is in the catalog with an empty reviews
object, yet the `GET /review/:isbn` variant of src/unnamed/part_000 reports
the 404 not-found condition "No reviews available" instead of succeeding
with the empty mapping. -/
theorem list_reviews_v0_empty_counterexample :
    objGet c8Books "1" = some { title := "T", author := "A", reviews := [] } ∧
    listReviewsV0 c8Books "1" = ListOutcome.noReviewsFound ∧
    ListOutcome.noReviewsFound ≠ ListOutcome.okReviews [] := by
  refine ⟨rfl, rfl, by decide⟩

/-- C9 counterexample: with alice registered, a login attempt with the
empty username and a non-empty password matches no registered user, yet the
handler fails with its missing-fields outcome (404, "no password or login"),
not the InvalidCredentials outcome (208, "Invalid Login...") the claim
requires for every non-matching pair. -/
theorem login_empty_username_counterexample :
    login c9Users "" "secret123" 0 = (LoginOutcome.missingFields, none) ∧
    (¬ ∃ x ∈ c9Users, x.username = "" ∧ x.password = "secret123") ∧
    LoginOutcome.missingFields ≠ LoginOutcome.invalidCredentials := by
  refine ⟨rfl, by decide, by decide⟩

/-- C8 (amended): for every isbn in the catalog whose reviews mapping is
empty, the `GET /review/:isbn` handler of final_project/router/general.js
and the part_001 variant succeed with the empty mapping and report neither
an error nor a not-found condition; the part_000 variant instead reports
the 404 "No reviews available" condition. -/
theorem list_reviews_empty_mapping (books : Books) (i : String) (b : Book)
    (hfound : objGet books i = some b) (hempty : b.reviews = []) :
    listReviewsMain books i = .okReviews [] ∧
    listReviewsV1 books i = .okReviews [] ∧
    listReviewsV0 books i = .noReviewsFound := by
  unfold listReviewsMain listReviewsV1 listReviewsV0
  rw [hfound]
  simp [hempty]

/-- C8 witness: the amended claim evaluated on a one-book catalog whose
only book has an empty reviews object. -/
theorem list_reviews_empty_mapping_witness :
    listReviewsMain c8Books "1" = ListOutcome.okReviews [] ∧
    listReviewsV1 c8Books "1" = ListOutcome.okReviews [] ∧
    listReviewsV0 c8Books "1" = ListOutcome.noReviewsFound :=
  list_reviews_empty_mapping c8Books "1"
    { title := "T", author := "A", reviews := [] } rfl rfl

/-- C9 (amended): for non-empty username and password — the empty cases are
taken by the earlier missing-fields branch — login succeeds exactly when a
registered user matches both the username and the password under strict
case-sensitive equality, and when no user matches it fails with the
InvalidCredentials outcome and neither a token nor a session is created. -/
theorem login_exact_match_required (usersList : List User)
    (username password : String) (now : Nat)
    (hu : username ≠ "") (hp : password ≠ "") :
    ((login usersList username password now).1 = LoginOutcome.loggedIn ↔
      ∃ x ∈ usersList, x.username = username ∧ x.password = password) ∧
    ((¬ ∃ x ∈ usersList, x.username = username ∧ x.password = password) →
      login usersList username password now = (.invalidCredentials, none)) := by
  have hiff :
      ((usersList.any fun x => x.username == username && x.password == password) = true) ↔
        ∃ x ∈ usersList, x.username = username ∧ x.password = password := by
    simp [List.any_eq_true]
  unfold login
  rw [if_neg (by tauto)]
  by_cases hany :
      (usersList.any fun x => x.username == username && x.password == password) = true
  · rw [if_pos hany]
    exact ⟨iff_of_true rfl (hiff.mp hany), fun hno => absurd (hiff.mp hany) hno⟩
  · rw [if_neg hany]
    exact ⟨iff_of_false (by simp) (fun hex => hany (hiff.mpr hex)),
           fun _ => rfl⟩

/-- C9 witness: the amended claim evaluated with alice registered and the
matching credentials supplied. -/
theorem login_exact_match_required_witness :
    ((login c9Users "alice" "secret123" 0).1 = LoginOutcome.loggedIn ↔
      ∃ x ∈ c9Users, x.username = "alice" ∧ x.password = "secret123") ∧
    ((¬ ∃ x ∈ c9Users, x.username = "alice" ∧ x.password = "secret123") →
      login c9Users "alice" "secret123" 0 = (.invalidCredentials, none)) :=
  login_exact_match_required c9Users "alice" "secret123" 0 (by decide) (by decide)

/-- C3: for a caller with non-empty resolved username u, deleting a review
on isbn i fails with BookNotFound when i is not in the catalog; fails with
ReviewNotFound when i is in the catalog but holds no review keyed u; and
otherwise succeeds, removing exactly the (i, u) review and leaving the
review of every other (isbn, user) pair untouched. -/
theorem delete_review_cases (books : Books) (tok : Token) (u i : String)
    (hu : u ≠ "") :
    (objGet books i = none →
      deleteReview books (some ⟨tok, u⟩) i = (.bookNotFound, books)) ∧
    (∀ b, objGet books i = some b → objGet b.reviews u = none →
      deleteReview books (some ⟨tok, u⟩) i = (.reviewNotFound, books)) ∧
    (∀ b r, objGet books i = some b → objGet b.reviews u = some r →
      (deleteReview books (some ⟨tok, u⟩) i).1 = DeleteOutcome.deleted ∧
      reviewAt (deleteReview books (some ⟨tok, u⟩) i).2 i u = none ∧
      (∀ i' u', ¬ (i' = i ∧ u' = u) →
        reviewAt (deleteReview books (some ⟨tok, u⟩) i).2 i' u' =
          reviewAt books i' u')) := by
  refine ⟨?_, ?_, ?_⟩
  · intro h
    simp only [deleteReview]
    rw [if_neg hu]
    simp only [h]
  · intro b hb hr
    simp only [deleteReview]
    rw [if_neg hu]
    simp only [hb, hr]
  · intro b r hb hr
    have hstep : deleteReview books (some ⟨tok, u⟩) i =
        (.deleted, objAssign books i { b with reviews := objDelete b.reviews u }) := by
      simp only [deleteReview]
      rw [if_neg hu]
      simp only [hb, hr]
    rw [hstep]
    refine ⟨rfl, ?_, ?_⟩
    · show reviewAt (objAssign books i { b with reviews := objDelete b.reviews u }) i u = none
      unfold reviewAt
      rw [objGet_objAssign_self]
      simpa using objGet_objDelete_self b.reviews u
    · intro i' u' hne
      show reviewAt (objAssign books i { b with reviews := objDelete b.reviews u }) i' u' =
        reviewAt books i' u'
      by_cases hii : i' = i
      · subst hii
        have hu' : u' ≠ u := fun h2 => hne ⟨rfl, h2⟩
        unfold reviewAt
        rw [objGet_objAssign_self, hb]
        simpa using objGet_objDelete_ne b.reviews u u' hu'
      · unfold reviewAt
        rw [objGet_objAssign_ne books i i' _ hii]

/-- C3 witness: the three cases evaluated on a one-book catalog where alice
holds the only review of book 1: unknown isbn 0, a review-less caller bob,
and the owner alice. -/
theorem delete_review_cases_witness :
    deleteReview c3Books (some ⟨c1Tok, "alice"⟩) "0" = (.bookNotFound, c3Books) ∧
    deleteReview c3Books (some ⟨c2Tok, "bob"⟩) "1" = (.reviewNotFound, c3Books) ∧
    (deleteReview c3Books (some ⟨c1Tok, "alice"⟩) "1").1 = DeleteOutcome.deleted :=
  ⟨(delete_review_cases c3Books c1Tok "alice" "0" (by decide)).1 rfl,
   (delete_review_cases c3Books c2Tok "bob" "1" (by decide)).2.1 _ rfl rfl,
   ((delete_review_cases c3Books c1Tok "alice" "1" (by decide)).2.2 _ "good" rfl rfl).1⟩

/-- C2 (amended): the delete handler keys the deletion on the resolved
session identity u2 alone, so a caller resolved as u2 can never remove the
review of a different user u1 — or of any user other than u2 — on any book;
when u2 holds no review on a known book the call fails with ReviewNotFound
(a not-found outcome, the handler has no cross-user authorization error to
give); and the call succeeds only by removing an existing review owned by
u2. -/
theorem delete_gated_by_resolved_identity (books : Books) (tok : Token)
    (u1 u2 i : String) (hne12 : u1 ≠ u2) (hu2 : u2 ≠ "") :
    reviewAt (deleteReview books (some ⟨tok, u2⟩) i).2 i u1 = reviewAt books i u1 ∧
    (∀ i' u', u' ≠ u2 →
      reviewAt (deleteReview books (some ⟨tok, u2⟩) i).2 i' u' = reviewAt books i' u') ∧
    (∀ b, objGet books i = some b → objGet b.reviews u2 = none →
      deleteReview books (some ⟨tok, u2⟩) i = (.reviewNotFound, books)) ∧
    ((deleteReview books (some ⟨tok, u2⟩) i).1 = DeleteOutcome.deleted →
      reviewAt books i u2 ≠ none) := by
  cases hbook : objGet books i with
  | none =>
    have hres : deleteReview books (some ⟨tok, u2⟩) i = (.bookNotFound, books) := by
      simp only [deleteReview]
      rw [if_neg hu2]
      simp only [hbook]
    rw [hres]
    refine ⟨rfl, fun i' u' _ => rfl, ?_, ?_⟩
    · intro b hb
      simp at hb
    · intro hdel
      cases hdel
  | some b =>
    cases hrev : objGet b.reviews u2 with
    | none =>
      have hres : deleteReview books (some ⟨tok, u2⟩) i = (.reviewNotFound, books) := by
        simp only [deleteReview]
        rw [if_neg hu2]
        simp only [hbook, hrev]
      rw [hres]
      refine ⟨rfl, fun i' u' _ => rfl, ?_, ?_⟩
      · intro b' hb' hr'
        rfl
      · intro hdel
        cases hdel
    | some r =>
      have hres : deleteReview books (some ⟨tok, u2⟩) i =
          (.deleted, objAssign books i { b with reviews := objDelete b.reviews u2 }) := by
        simp only [deleteReview]
        rw [if_neg hu2]
        simp only [hbook, hrev]
      rw [hres]
      have hframe : ∀ i' u', u' ≠ u2 →
          reviewAt (objAssign books i { b with reviews := objDelete b.reviews u2 }) i' u' =
            reviewAt books i' u' := by
        intro i' u' hu'
        by_cases hii : i' = i
        · subst hii
          unfold reviewAt
          rw [objGet_objAssign_self, hbook]
          simpa using objGet_objDelete_ne b.reviews u2 u' hu'
        · unfold reviewAt
          rw [objGet_objAssign_ne books i i' _ hii]
      refine ⟨hframe i u1 hne12, hframe, ?_, ?_⟩
      · intro b' hb' hr'
        cases hb'
        rw [hrev] at hr'
        cases hr'
      · intro _
        unfold reviewAt
        rw [hbook]
        simp [hrev]

/-- C2 witness: the amended claim applied where alice and bob both hold
reviews on book 1 and the caller resolves to bob: the review held by alice
survives the call. -/
theorem delete_gated_by_resolved_identity_witness :
    reviewAt (deleteReview c2Books (some ⟨c2Tok, "bob"⟩) "1").2 "1" "alice" =
      reviewAt c2Books "1" "alice" :=
  (delete_gated_by_resolved_identity c2Books c2Tok "alice" "bob" "1"
    (by decide) (by decide)).1

/-- C1: for a catalog isbn i and a caller holding a valid token whose
subject is u, upserting text t1 and then t2 succeeds twice and leaves the
reviews object of i with exactly one entry keyed u, whose text is t2 — the
second write replaces the first in place and never duplicates.  The
`countKey` hypothesis is the JS object invariant that keys are unique. -/
theorem upsert_replaces_in_place
    (books : Books) (tok : Token) (sessionU i u t1 t2 : String) (now : Nat)
    (b : Book)
    (hfound : objGet books i = some b)
    (hnodup : countKey b.reviews u ≤ 1)
    (hkey : tok.sigKey = "access")
    (hfresh : now < tok.exp)
    (hsub : tok.payload.username = u) :
    (putReview books (some ⟨tok, sessionU⟩) now i t1).1 = PutOutcome.updated ∧
    (putReview (putReview books (some ⟨tok, sessionU⟩) now i t1).2
        (some ⟨tok, sessionU⟩) now i t2).1 = PutOutcome.updated ∧
    ∃ b2,
      objGet (putReview (putReview books (some ⟨tok, sessionU⟩) now i t1).2
          (some ⟨tok, sessionU⟩) now i t2).2 i = some b2 ∧
      objGet b2.reviews u = some t2 ∧
      countKey b2.reviews u = 1 := by
  have hv : jwtVerify tok "access" now = .ok tok.payload := by
    unfold jwtVerify
    rw [if_neg (by simp [hkey]), if_neg (by omega)]
  have h1 : putReview books (some ⟨tok, sessionU⟩) now i t1 =
      (.updated, objAssign books i { b with reviews := objAssign b.reviews u t1 }) := by
    simp only [putReview]
    simp only [hv, hfound, hsub]
  set b1 : Book := { b with reviews := objAssign b.reviews u t1 } with hb1
  have hfound1 : objGet (objAssign books i b1) i = some b1 :=
    objGet_objAssign_self books i b1
  have h2 : putReview (objAssign books i b1) (some ⟨tok, sessionU⟩) now i t2 =
      (.updated, objAssign (objAssign books i b1) i
        { b1 with reviews := objAssign b1.reviews u t2 }) := by
    simp only [putReview]
    simp only [hv, hfound1, hsub]
  refine ⟨by simp only [h1], by simp only [h1, h2], ?_⟩
  simp only [h1, h2]
  refine ⟨{ b1 with reviews := objAssign b1.reviews u t2 },
    objGet_objAssign_self _ _ _, ?_, ?_⟩
  · show objGet (objAssign b1.reviews u t2) u = some t2
    exact objGet_objAssign_self _ _ _
  · show countKey (objAssign b1.reviews u t2) u = 1
    apply countKey_objAssign_self
    have hone : countKey (objAssign b.reviews u t1) u = 1 :=
      countKey_objAssign_self b.reviews u t1 hnodup
    show countKey (objAssign b.reviews u t1) u ≤ 1
    omega

/-- C1 witness: alice upserts two texts on book 1 of a one-book catalog
with a fresh token; the final state holds exactly one alice entry with the
second text. -/
theorem upsert_replaces_in_place_witness :
    (putReview c1Books (some ⟨c1Tok, "alice"⟩) 0 "1" "first").1 = PutOutcome.updated ∧
    (putReview (putReview c1Books (some ⟨c1Tok, "alice"⟩) 0 "1" "first").2
        (some ⟨c1Tok, "alice"⟩) 0 "1" "second").1 = PutOutcome.updated ∧
    ∃ b2,
      objGet (putReview (putReview c1Books (some ⟨c1Tok, "alice"⟩) 0 "1" "first").2
          (some ⟨c1Tok, "alice"⟩) 0 "1" "second").2 "1" = some b2 ∧
      objGet b2.reviews "alice" = some "second" ∧
      countKey b2.reviews "alice" = 1 :=
  upsert_replaces_in_place c1Books c1Tok "alice" "1" "alice" "first" "second" 0
    c1Book rfl (by decide) rfl (by decide) rfl

theorem jsMathCeilDiv_bounds (num den : Int) (hden : 0 < den) :
    num ≤ den * jsMathCeilDiv num den ∧ den * jsMathCeilDiv num den < num + den := by
  unfold jsMathCeilDiv
  have h1 := Int.fmod_add_fdiv (-num) den
  have h2 := Int.fmod_nonneg' (-num) hden
  have h3 := Int.fmod_lt_of_pos (-num) hden
  constructor
  · rw [mul_neg]
    linarith
  · rw [mul_neg]
    linarith

theorem checkRateLimit_denies (limit : Nat) (window : Int) (st : RateMap)
    (clientIP : String) (now : Int)
    (h : limit ≤ (retainedRequests st clientIP window now).length) :
    checkRateLimit limit window st clientIP now =
      (.denied (jsMathCeilDiv
        (jsMathMin (retainedRequests st clientIP window now) + window - now) 1000),
       st) := by
  simp only [checkRateLimit]
  rw [if_pos h]

theorem checkRateLimit_allows (limit : Nat) (window : Int) (st : RateMap)
    (clientIP : String) (now : Int)
    (h : (retainedRequests st clientIP window now).length < limit) :
    checkRateLimit limit window st clientIP now =
      (.allowed,
       objAssign st clientIP (retainedRequests st clientIP window now ++ [now])) := by
  simp only [checkRateLimit]
  rw [if_neg (by omega)]

/-- Concrete instance of the rate-limit middleware with limit 3 and a
60000 ms window for a single client, used for the section 8 scenario. -/
def rlStep (st : RateMap) (now : Int) : AdmitDecision × RateMap :=
  checkRateLimit 3 60000 st "client" now

/-- C6: the middleware first discards the timestamps that have left the
trailing window; when the retained count has reached the limit it denies,
does not record the request, and reports retryAfter equal to the seconds
(rounded up — the two bound conjuncts pin the rounding) until the oldest
retained timestamp exits the window; otherwise it appends now and admits.
The closing conjuncts run the spec scenario: limit 3, window 60 s, requests
at 0 s, 10 s, 20 s admitted, the request at 30 s denied with retryAfter 30
and nothing recorded, and a request at 61 s admitted again. -/
theorem rate_limiter_sliding_window
    (limit : Nat) (window : Int) (st : RateMap) (clientIP : String) (now : Int) :
    (limit ≤ (retainedRequests st clientIP window now).length →
      checkRateLimit limit window st clientIP now =
        (.denied (jsMathCeilDiv
          (jsMathMin (retainedRequests st clientIP window now) + window - now) 1000),
         st) ∧
      jsMathMin (retainedRequests st clientIP window now) + window - now ≤
        1000 * jsMathCeilDiv
          (jsMathMin (retainedRequests st clientIP window now) + window - now) 1000 ∧
      1000 * jsMathCeilDiv
          (jsMathMin (retainedRequests st clientIP window now) + window - now) 1000 <
        jsMathMin (retainedRequests st clientIP window now) + window - now + 1000) ∧
    ((retainedRequests st clientIP window now).length < limit →
      checkRateLimit limit window st clientIP now =
        (.allowed,
         objAssign st clientIP (retainedRequests st clientIP window now ++ [now]))) ∧
    rlStep [] 0 = (.allowed, [("client", [0])]) ∧
    rlStep [("client", [0])] 10000 = (.allowed, [("client", [0, 10000])]) ∧
    rlStep [("client", [0, 10000])] 20000 =
      (.allowed, [("client", [0, 10000, 20000])]) ∧
    rlStep [("client", [0, 10000, 20000])] 30000 =
      (.denied 30, [("client", [0, 10000, 20000])]) ∧
    (rlStep [("client", [0, 10000, 20000])] 61000).1 = AdmitDecision.allowed := by
  refine ⟨?_, ?_, ?_, ?_, ?_, ?_, ?_⟩
  · intro h
    exact ⟨checkRateLimit_denies limit window st clientIP now h,
      (jsMathCeilDiv_bounds _ 1000 (by norm_num)).1,
      (jsMathCeilDiv_bounds _ 1000 (by norm_num)).2⟩
  · intro h
    exact checkRateLimit_allows limit window st clientIP now h
  · decide
  · decide
  · decide
  · decide
  · decide

/-- C6 witness: the deny branch at the scenario state (three timestamps in
window, limit 3) and the admit branch at one timestamp in window. -/
theorem rate_limiter_sliding_window_witness :
    checkRateLimit 3 60000 [("client", [0, 10000, 20000])] "client" 30000 =
      (.denied (jsMathCeilDiv
        (jsMathMin (retainedRequests [("client", [0, 10000, 20000])] "client" 60000 30000)
          + 60000 - 30000) 1000),
       [("client", [0, 10000, 20000])]) ∧
    checkRateLimit 3 60000 [("client", [0])] "client" 10000 =
      (.allowed,
       objAssign [("client", [0])] "client"
         (retainedRequests [("client", [0])] "client" 60000 10000 ++ [10000])) :=
  ⟨((rate_limiter_sliding_window 3 60000 [("client", [0, 10000, 20000])] "client" 30000).1
      (by decide)).1,
   (rate_limiter_sliding_window 3 60000 [("client", [0])] "client" 10000).2.1
      (by decide)⟩

/-- C7: when the rate limiter denies admission of an async fetch, the route
answers immediately with the RateLimited outcome carrying retryAfter, the
recorded state is unchanged, and zero downstream calls — the internal HTTP
read of the synchronous catalog endpoint — are issued. -/
theorem async_denied_skips_downstream
    (limit : Nat) (window : Int) (st : RateMap) (clientIP : String) (now : Int)
    (body : String)
    (h : limit ≤ (retainedRequests st clientIP window now).length) :
    asyncBooksRoute limit window st clientIP now body =
      (.rateLimited (jsMathCeilDiv
        (jsMathMin (retainedRequests st clientIP window now) + window - now) 1000),
       st, 0) := by
  simp only [asyncBooksRoute, checkRateLimit_denies limit window st clientIP now h]

/-- C7 witness: the denied async fetch at the concrete scenario state never
reaches the downstream call (call count 0). -/
theorem async_denied_skips_downstream_witness :
    asyncBooksRoute 3 60000 [("client", [0, 10000, 20000])] "client" 30000 "body" =
      (.rateLimited (jsMathCeilDiv
        (jsMathMin (retainedRequests [("client", [0, 10000, 20000])] "client" 60000 30000)
          + 60000 - 30000) 1000),
       [("client", [0, 10000, 20000])], 0) :=
  async_denied_skips_downstream 3 60000 [("client", [0, 10000, 20000])] "client" 30000
    "body" (by decide)

end BookReviews
